import Mathlib

/-!
Shallow embedding of the testcode2 extraction-and-comparison engine
(src/lib/testcode2/validation.py and src/lib/testcode2/util.py).

Python floats are modelled as rationals plus an explicit NaN marker; scalar
values extracted from text are either such a number or an opaque string
token.  Python exceptions that the embedded code can raise are modelled by
an explicit error type and Except-valued functions.  Rendering of numbers
inside diagnostic messages (the Python percent-formatting with %.2e) is
abstracted by fmtE below; no theorem in this development inspects those
rendered digits.
-/

/-- Errors the embedded Python code can raise. -/
inductive PyError where
  | indexError
  | keyError
  | typeError
  | nameError
deriving DecidableEq

/-- Equality of Except-valued outcomes is decidable. -/
instance exceptDecEq {ε α : Type} [DecidableEq ε] [DecidableEq α] :
    DecidableEq (Except ε α)
  | Except.ok a, Except.ok b =>
      if h : a = b then isTrue (by rw [h])
      else isFalse (by intro he; cases he; exact h rfl)
  | Except.ok _, Except.error _ => isFalse (by intro h; cases h)
  | Except.error _, Except.ok _ => isFalse (by intro h; cases h)
  | Except.error e, Except.error f =>
      if h : e = f then isTrue (by rw [h])
      else isFalse (by intro he; cases he; exact h rfl)

/-- A scalar value held in a data set: a finite float (modelled as a
rational), the float NaN, or an opaque string token. -/
inductive Val where
  | num (q : ℚ)
  | nan
  | str (s : String)
deriving DecidableEq

/-- True when the Python value has type float (finite numbers and NaN). -/
def Val.isFloat : Val → Bool
  | Val.num _ => true
  | Val.nan => true
  | Val.str _ => false

/-- Python equality on the scalar values: numbers compare by value, strings
by content, NaN is unequal to everything (including itself), and a number
never equals a string. -/
def Val.pyEq : Val → Val → Bool
  | Val.num a, Val.num b => decide (a = b)
  | Val.str a, Val.str b => decide (a = b)
  | _, _ => false

/-- validation.py, class Status: enum-esque tri-state verdict.  The Python
class stores the ordinals _pass = 0, _partial = 1, _fail = 2. -/
inductive Status where
  | pass
  | warning
  | fail
deriving DecidableEq, Fintype

/-- The ordinal stored in the Python object (_pass, _partial, _fail). -/
def Status.toNat : Status → ℕ
  | Status.pass => 0
  | Status.warning => 1
  | Status.fail => 2

/-- Recover a Status from its ordinal. -/
def Status.fromNat (n : ℕ) : Status :=
  if n = 0 then Status.pass else if n = 1 then Status.warning else Status.fail

/-- Status.__init__ from an iterable of booleans: pass if all are true,
fail if none are, warning (partial pass) otherwise. -/
def Status.ofBools (bools : List Bool) : Status :=
  if bools.all (fun b => b) then Status.pass
  else if bools.any (fun b => b) then Status.warning
  else Status.fail

/-- Status.__add__: return the maximum level (most failed) of the two
ordinals. -/
def Status.add (a b : Status) : Status :=
  Status.fromNat (max a.toNat b.toNat)

/-- Status.passed(): the stored status is the pass ordinal. -/
def Status.passed (s : Status) : Bool :=
  decide (s = Status.pass)

/-- The total order Pass < Warning < Fail, via the stored ordinals. -/
instance : LinearOrder Status :=
  LinearOrder.lift' Status.toNat (by decide)

/-- validation.py, class Tolerance: optional absolute and relative
thresholds (None is modelled by none). -/
structure Tolerance where
  absolute : Option ℚ
  relative : Option ℚ
deriving DecidableEq

/-- Python truthiness of a threshold: None and 0.0 are falsy, so a check
only runs when the threshold is present and nonzero. -/
def Tolerance.truthy : Option ℚ → Bool
  | none => false
  | some q => decide (q ≠ 0)

/-- The relative error computed in Tolerance.validate; none stands for the
Python value float Inf. -/
def relErr (diff benchmark_val : ℚ) : Option ℚ :=
  if benchmark_val = 0 ∧ diff = 0 then some 0
  else if benchmark_val = 0 then none
  else some |diff / benchmark_val|

/-- Comparison err < tol where err may be the infinite relative error;
Inf < tol is false for every finite tol. -/
def errLt : Option ℚ → ℚ → Bool
  | some e, tol => decide (e < tol)
  | none, _ => false

/-- Abstract stand-in for the Python rendering of a float with the %.2e
format; no theorem inspects the rendered digits. -/
def fmtE (q : ℚ) : String := toString q

/-- Rendering of a possibly infinite relative error. -/
def fmtEInf : Option ℚ → String
  | some q => fmtE q
  | none => "inf"

/-- The failure message of the absolute check. -/
def absMsg (err a : ℚ) : String :=
  "absolute error " ++ fmtE err ++ " greater than " ++ fmtE a ++ "."

/-- The failure message of the relative check. -/
def relMsg (err : Option ℚ) (r : ℚ) : String :=
  "relative error " ++ fmtEInf err ++ " greater than " ++ fmtE r ++ "."

/-- Tolerance.validate (validation.py lines 81-120).  The Python code wraps
the numeric comparison in try/except TypeError: isnan raises TypeError on a
string value, in which case the except branch requires plain equality.
When the test value is NaN the short-circuit or never looks at the
benchmark value.  The final statement prefixes the message with the key
when the key is nonempty. -/
def Tolerance.validate (tol : Tolerance) (test_val benchmark_val : Val)
    (key : String) : Status × String :=
  let status0 := Status.ofBools [true]
  let msg0 := "values are within tolerance."
  let core : Status × String :=
    match test_val, benchmark_val with
    | Val.num t, Val.num b =>
        let diff := t - b
        let s1 :=
          if Tolerance.truthy tol.absolute then
            let a := tol.absolute.getD 0
            let err := |diff|
            let abs_passed := decide (err < a)
            (Status.add status0 (Status.ofBools [abs_passed]),
              if abs_passed then msg0 else absMsg err a)
          else (status0, msg0)
        if Tolerance.truthy tol.relative then
          let r := tol.relative.getD 0
          let err := relErr diff b
          let rel_passed := errLt err r
          (Status.add s1.1 (Status.ofBools [rel_passed]),
            if rel_passed then s1.2 else relMsg err r)
        else s1
    | Val.nan, _ => (Status.ofBools [false], "cannot compare NaNs.")
    | Val.num _, Val.nan => (Status.ofBools [false], "cannot compare NaNs.")
    | Val.str s, y =>
        if Val.pyEq (Val.str s) y then (status0, msg0)
        else (Status.ofBools [false], "values are different.")
    | Val.num t, Val.str s =>
        if Val.pyEq (Val.num t) (Val.str s) then (status0, msg0)
        else (Status.ofBools [false], "values are different.")
  (core.1, if key = "" then core.2 else key ++ ": " ++ core.2)

/-- A Python dict from field name to the growing list of extracted values,
modelled as an insertion-ordered association list with unique keys. -/
abbrev DataSet : Type := List (String × List Val)

/-- The dict's keys, in insertion order. -/
def keys (d : DataSet) : List String := d.map Prod.fst

/-- Dict lookup; the default [] is only reached for a key that is absent,
which the call sites below guard against exactly as the Python does. -/
def lookupD (d : DataSet) (k : String) : List Val :=
  match d.find? (fun p => p.1 = k) with
  | some p => p.2
  | none => []

/-- sorted(data_dict.keys()): the keys in ascending string order. -/
def sortedKeys (d : DataSet) : List String :=
  (keys d).insertionSort (fun a b => a ≤ b)

/-- The nitems lambda of compare_data: the per-field sequence lengths taken
over sorted(data_dict.items()).  A dict has unique keys, so sorting the
items lexicographically lists them in key order. -/
def nitems (d : DataSet) : List ℕ :=
  (sortedKeys d).map (fun k => (lookupD d k).length)

/-- Selecting the tolerance for a field: the per-field override when the
key is present in the tolerances dict, else the default. -/
def tolFor (tolerances : List (String × Tolerance)) (default_tolerance : Tolerance)
    (key : String) : Tolerance :=
  match tolerances.find? (fun p => p.1 = key) with
  | some p => p.2
  | none => default_tolerance

/-- The inner loop of compare_data: validate each position of one field,
accumulating the combined status and the messages of non-passing
comparisons in order. -/
def validatePositions (tol : Tolerance) (tvals bvals : List Val) (key : String)
    (acc : Status × List String) : Status × List String :=
  (List.range bvals.length).foldl
    (fun a ind =>
      let r := tol.validate (tvals.getD ind (Val.num 0)) (bvals.getD ind (Val.num 0)) key
      (Status.add a.1 r.1,
        if r.1.passed = false ∧ r.2 ≠ "" then a.2 ++ [r.2] else a.2))
    acc

/-- The comparable branch structure of compare_data (validation.py lines
129-153), reached when ignore_fields is empty. -/
def compare_data_core (benchmark test : DataSet) (default_tolerance : Tolerance)
    (tolerances : List (String × Tolerance)) : Bool × Status × String :=
  if sortedKeys benchmark ≠ sortedKeys test ∨ nitems benchmark ≠ nitems test then
    (false, Status.ofBools [false],
      "Different sets of data extracted from benchmark and test.")
  else
    let r := (keys benchmark).foldl
      (fun acc key =>
        validatePositions (tolFor tolerances default_tolerance key)
          (lookupD test key) (lookupD benchmark key) key acc)
      (Status.ofBools [true], [])
    (true, r.1, String.intercalate "\n" r.2)

/-- compare_data (validation.py lines 122-154).  When ignore_fields is
non-empty the Python executes benchmark.pop([field]): the key passed to
dict.pop is the one-element list [field].  On a non-empty dict hashing the
list key raises TypeError; on an empty dict CPython raises KeyError before
hashing.  Either way the first iteration raises and no field is ever
removed. -/
def compare_data (benchmark test : DataSet) (default_tolerance : Tolerance)
    (tolerances : List (String × Tolerance)) (ignore_fields : List String) :
    Except PyError (Bool × Status × String) :=
  match ignore_fields with
  | [] => Except.ok (compare_data_core benchmark test default_tolerance tolerances)
  | _ :: _ =>
    if benchmark.isEmpty then Except.error PyError.keyError
    else Except.error PyError.typeError

/-- Whether the first list of characters begins the second one. -/
def listStarts : List Char → List Char → Bool
  | [], _ => true
  | _ :: _, [] => false
  | a :: as, b :: bs => a = b && listStarts as bs

/-- The regular expression match performed on every line by
extract_tagged_data: the pattern is a caret, a star over the space
character, then the escaped (hence literal) data tag.  The line matches
when some run of leading spaces is followed by the tag. -/
def leadingSpaceMatch (tag : String) : List Char → Bool
  | [] => listStarts tag.toList []
  | c :: rest =>
    listStarts tag.toList (c :: rest) || (c = ' ' && leadingSpaceMatch tag rest)

/-- data_tag_regex.match(line). -/
def matchesTag (tag line : String) : Bool :=
  leadingSpaceMatch tag line.toList

/-- str.split() with no argument: split on runs of whitespace, discarding
empty tokens. -/
def tokensAux : List Char → List Char → List String
  | [], acc => if acc.isEmpty then [] else [String.mk acc.reverse]
  | c :: rest, acc =>
    if c.isWhitespace then
      if acc.isEmpty then tokensAux rest []
      else String.mk acc.reverse :: tokensAux rest []
    else tokensAux rest (c :: acc)

/-- Tokenize a line the way line.split() does. -/
def pySplit (s : String) : List String := tokensAux s.toList []

/-- str.splitlines(): split at newline characters, without a trailing
empty line when the text ends in a newline. -/
def linesAux : List Char → List Char → List String
  | [], acc => if acc.isEmpty then [] else [String.mk acc.reverse]
  | c :: rest, acc =>
    if c = '\n' then String.mk acc.reverse :: linesAux rest []
    else linesAux rest (c :: acc)

/-- All lines of a piece of text. -/
def splitLines (s : String) : List String := linesAux s.toList []

/-- The numeric value of a run of decimal digit characters. -/
def natOfDigits (l : List Char) : ℕ :=
  l.foldl (fun n c => 10 * n + (c.toNat - 48)) 0

/-- The Python float() constructor on a finite decimal literal: optional
sign, digits with an optional fractional part (at least one digit in
total), and an optional exponent.  Infinite literals and digit-group
underscores are not modelled; the nan literal is handled by try_floatify.
Returns none when the string is not such a literal (float() raises
ValueError there). -/
def pyFloat? (s : String) : Option ℚ :=
  let cs := s.toList
  let signed : Bool × List Char :=
    match cs with
    | '+' :: rest => (false, rest)
    | '-' :: rest => (true, rest)
    | _ => (false, cs)
  let neg := signed.1
  let ip := signed.2.takeWhile (fun c => c.isDigit)
  let cs2 := signed.2.dropWhile (fun c => c.isDigit)
  let frac : List Char × List Char :=
    match cs2 with
    | '.' :: rest => (rest.takeWhile (fun c => c.isDigit),
                      rest.dropWhile (fun c => c.isDigit))
    | _ => ([], cs2)
  let fp := frac.1
  if ip.isEmpty && fp.isEmpty then none
  else
    let den := 10 ^ fp.length
    let numer := natOfDigits ip * den + natOfDigits fp
    let mant : ℚ := mkRat (Int.ofNat numer) den
    let m := if neg then -mant else mant
    match frac.2 with
    | [] => some m
    | e :: rest =>
      if e = 'e' || e = 'E' then
        let esigned : Bool × List Char :=
          match rest with
          | '+' :: r2 => (false, r2)
          | '-' :: r2 => (true, r2)
          | _ => (false, rest)
        let ed := esigned.2.takeWhile (fun c => c.isDigit)
        let rest2 := esigned.2.dropWhile (fun c => c.isDigit)
        if ed.isEmpty || !rest2.isEmpty then none
        else
          some (if esigned.1 then mkRat m.num (m.den * 10 ^ natOfDigits ed)
                else mkRat (m.num * Int.ofNat (10 ^ natOfDigits ed)) m.den)
      else none

/-- ASCII lowercasing of one character. -/
def lowerChar (c : Char) : Char :=
  if 'A' ≤ c ∧ c ≤ 'Z' then Char.ofNat (c.toNat + 32) else c

/-- Whether the token is one of the case-insensitive nan spellings that
float() accepts. -/
def isNanLiteral (s : String) : Bool :=
  let low := s.toList.map lowerChar
  low = ['n', 'a', 'n'] || low = ['+', 'n', 'a', 'n'] || low = ['-', 'n', 'a', 'n']

/-- util.py try_floatify: convert a token to a float if possible, keeping
the token itself otherwise.  float() also accepts the nan literal, which
becomes the NaN value. -/
def try_floatify (s : String) : Val :=
  if isNanLiteral s then Val.nan
  else
    match pyFloat? s with
    | some q => Val.num q
    | none => Val.str s

/-- The key-and-value scan of one tagged line (util.py lines 49-66), given
the whitespace tokens of the line.  words[1:] is walked left to right,
accumulating tokens into the key until the first one that floatifies; that
token's value is the data value.  If the loop finishes without a break the
value variable holds the (string) value of the last token.  Afterwards the
code indexes key[-1] twice, first on the list and then on the joined
string: on an empty key list, or a key list whose only token is dropped by
the first trim, that access raises IndexError.  If words[1:] is empty the
IndexError on key[-1] fires before the unbound value variable would raise
NameError. -/
def processTagLine (words : List String) : Except PyError (String × Val) :=
  let rest := words.drop 1
  let key := rest.takeWhile (fun w => !(try_floatify w).isFloat)
  let val? : Option Val :=
    match rest.find? (fun w => (try_floatify w).isFloat) with
    | some w => some (try_floatify w)
    | none => rest.getLast?.map Val.str
  match key.getLast? with
  | none => Except.error PyError.indexError
  | some last =>
    let key1 := if last = "=" || last = ":" then key.dropLast else key
    let ks := String.intercalate "_" key1
    if ks = "" then Except.error PyError.indexError
    else
      let ks2 := if ks.back = '=' || ks.back = ':' then ks.dropRight 1 else ks
      let name := if ks2 = "" then "data" else ks2
      match val? with
      | some v => Except.ok (name, v)
      | none => Except.error PyError.nameError

/-- dict insertion as in extract_tagged_data: append to the existing
sequence when the key is present, else add the key with a fresh
one-element sequence. -/
def upsert (d : DataSet) (k : String) (v : Val) : DataSet :=
  if (keys d).contains k then
    d.map (fun p => if p.1 = k then (p.1, p.2 ++ [v]) else p)
  else d ++ [(k, [v])]

/-- util.py extract_tagged_data, lines 44-74, applied to the lines read
from the file.  The existence check on the backing file (lines 37-39,
raising RunError) is external input acquisition and is not modelled: the
argument here is the list of lines of an existing file.  The final
conversion of the accumulated lists to tuples freezes the data and is the
identity on this model. -/
def extract_tagged_data (data_tag : String) (file_lines : List String) :
    Except PyError DataSet :=
  file_lines.foldlM
    (fun data line =>
      if matchesTag data_tag line then
        match processTagLine (pySplit line) with
        | Except.error e => Except.error e
        | Except.ok nv => Except.ok (upsert data nv.1 nv.2)
      else Except.ok data)
    []

/-- Register every name of a new header row (util.py lines 107-110): a key
not yet in the dict starts with an empty sequence.  The all-strings test
guarding this call guarantees every entry of the row is a string token. -/
def registerHeader (d : DataSet) (head : List String) : DataSet :=
  head.foldl (fun d2 k => if (keys d2).contains k then d2 else d2 ++ [(k, [])]) d

/-- Append one value to the sequence of an existing key. -/
def appendVal (d : DataSet) (k : String) (v : Val) : DataSet :=
  d.map (fun p => if p.1 = k then (p.1, p.2 ++ [v]) else p)

/-- A data row (util.py lines 111-117): the token at position ind is
appended to the field named by the active header's ind-th entry.  Indexing
head past its end raises IndexError, and appending to a name that is not a
dict key raises KeyError (neither is reachable when the rows align with
their header). -/
def appendRow (head : List String) (d : DataSet) (dline : List Val) :
    Except PyError DataSet :=
  dline.foldlM
    (fun (st : ℕ × DataSet) (v : Val) =>
      match head.get? st.1 with
      | none => Except.error PyError.indexError
      | some k =>
        if (keys st.2).contains k then Except.ok (st.1 + 1, appendVal st.2 k v)
        else Except.error PyError.keyError)
    ((0 : ℕ), d) |>.map Prod.snd

/-- The string content of a value known to be a string token. -/
def Val.asStr : Val → String
  | Val.str s => s
  | Val.num _ => ""
  | Val.nan => ""

/-- util.py dict_table_string, lines 94-121.  Rows whose entries all fail
to floatify are headers and set the active key list, registering new
names; other rows are data rows appended positionally under the active
header.  A data row before any header reads the unbound head variable,
which raises NameError.  The final tuple conversion is the identity on
this model. -/
def dict_table_string (table_string : String) : Except PyError DataSet :=
  let data := (splitLines table_string).map (fun l => (pySplit l).map try_floatify)
  data.foldlM
    (fun (st : Option (List String) × DataSet) (dline : List Val) =>
      if dline.all (fun v => !v.isFloat) then
        let head := dline.map Val.asStr
        Except.ok (some head, registerHeader st.2 head)
      else
        match st.1 with
        | none => Except.error PyError.nameError
        | some head =>
          match appendRow head st.2 dline with
          | Except.error e => Except.error e
          | Except.ok d2 => Except.ok (some head, d2))
    ((none : Option (List String)), ([] : DataSet)) |>.map Prod.snd

/-! Helper lemmas shared by the claim theorems. -/

/-- A status built from a single true boolean is a pass. -/
lemma ofBools_true : Status.ofBools [true] = Status.pass := rfl

/-- A status built from a single false boolean is a fail. -/
lemma ofBools_false : Status.ofBools [false] = Status.fail := rfl

/-- Combining two statuses that are not warnings cannot produce one. -/
lemma add_ne_warning (a b : Status) (ha : a ≠ Status.warning)
    (hb : b ≠ Status.warning) : Status.add a b ≠ Status.warning := by
  revert ha hb; revert a b; decide

/-- C8: the Status combination operator is commutative, associative and
idempotent, has identity Pass and absorbing element Fail, and coincides
with the pairwise maximum under the total order Pass < Warning < Fail. -/
theorem status_add_algebra :
    ∀ a b c : Status,
      Status.add a b = Status.add b a ∧
      Status.add (Status.add a b) c = Status.add a (Status.add b c) ∧
      Status.add a a = a ∧
      Status.add Status.pass a = a ∧ Status.add a Status.pass = a ∧
      Status.add Status.fail a = Status.fail ∧
      Status.add a Status.fail = Status.fail ∧
      Status.add a b = max a b ∧
      Status.pass < Status.warning ∧ Status.warning < Status.fail := by
  decide

/-- C6: tabular extraction on the five-row example: a row with no numeric
token starts a new header, new header names are registered on sight, and a
name repeated across subtables accumulates onto one sequence in row
order. -/
theorem dict_table_string_example :
    dict_table_string "a  b  c\n1  2  3\n4  5  6\na  b  d  e\n7  8  9  6" =
      Except.ok [("a", [Val.num 1, Val.num 4, Val.num 7]),
                 ("b", [Val.num 2, Val.num 5, Val.num 8]),
                 ("c", [Val.num 3, Val.num 6]),
                 ("d", [Val.num 9]),
                 ("e", [Val.num 6])] := by
  decide

/-- C2 (counterexample): with the tag Energy: itself, the first whitespace
token of the qualifying line is the tag and is discarded, the very next
token is numeric, so the key list is empty and the access key[-1] raises
IndexError; the claimed DataSet is never returned. -/
theorem extract_tagged_energy_tag_raises :
    extract_tagged_data "Energy:" ["Energy:      1.256743 a.u."] =
      Except.error PyError.indexError := by
  decide

/-- C2 (amended): when the tag is a marker token preceding the key, as in
the docstring of extract_tagged_data, the tag token is discarded, the key
token Energy: loses its trailing colon, and the first numeric token
becomes the value. -/
theorem extract_tagged_data_tag_example :
    extract_tagged_data "data_tag" ["data_tag Energy:      1.256743 a.u."] =
      Except.ok [("Energy", [Val.num (mkRat 1256743 1000000)])] := by
  decide

/-- C3: compare_data with a non-empty ignore_fields collection never
removes a field: the call benchmark.pop([field]) passes the one-element
list as the dict key and raises (TypeError from hashing the list, or
KeyError on an empty dict) on the first iteration. -/
theorem compare_data_ignore_raises :
    compare_data [("a", [Val.num 1])] [("a", [Val.num 1])]
        (Tolerance.mk none none) [] ["b"] =
      Except.error PyError.typeError := by
  rfl

/-- A nonzero threshold is truthy. -/
lemma truthy_some_ne (x : ℚ) (hx : x ≠ 0) : Tolerance.truthy (some x) = true := by
  simp [Tolerance.truthy, hx]

/-- A zero threshold is falsy, like an unset one. -/
lemma truthy_zero : Tolerance.truthy (some 0) = false := by
  simp [Tolerance.truthy]

/-- The status component of validate on two finite numbers: pass exactly
when every check whose threshold is truthy succeeds. -/
lemma validate_num_num (tol : Tolerance) (t b : ℚ) (k : String) :
    (tol.validate (Val.num t) (Val.num b) k).1 =
      if (((!Tolerance.truthy tol.absolute) ||
             decide (|t - b| < tol.absolute.getD 0)) &&
          ((!Tolerance.truthy tol.relative) ||
             errLt (relErr (t - b) b) (tol.relative.getD 0))) = true
      then Status.pass else Status.fail := by
  cases hA : Tolerance.truthy tol.absolute <;>
    cases hR : Tolerance.truthy tol.relative <;>
      cases hd : decide (|t - b| < tol.absolute.getD 0) <;>
        cases he : errLt (relErr (t - b) b) (tol.relative.getD 0) <;>
          simp [Tolerance.validate, hA, hR, hd, he, Status.add, Status.fromNat,
            Status.toNat, Status.ofBools]

/-- The relative error of a zero difference is zero whatever the
benchmark value. -/
lemma relErr_diff_zero (b : ℚ) : relErr 0 b = some 0 := by
  by_cases hb : b = 0 <;> simp [relErr, hb]

/-- C10: a threshold equal to 0 behaves exactly as an unset threshold
(Python truthiness skips the check), and with both thresholds 0 or both
unset every pair of finite numbers passes. -/
theorem tolerance_zero_threshold_unset :
    ∀ (x y : Val) (k : String) (a r : Option ℚ) (t b : ℚ),
      (Tolerance.mk (some 0) r).validate x y k =
        (Tolerance.mk none r).validate x y k ∧
      (Tolerance.mk a (some 0)).validate x y k =
        (Tolerance.mk a none).validate x y k ∧
      ((Tolerance.mk (some 0) (some 0)).validate (Val.num t) (Val.num b) k).1 =
        Status.pass ∧
      ((Tolerance.mk none none).validate (Val.num t) (Val.num b) k).1 =
        Status.pass := by
  intro x y k a r t b
  refine ⟨?_, ?_, ?_, ?_⟩
  · cases x <;> cases y <;>
      simp [Tolerance.validate, truthy_zero, Tolerance.truthy]
  · cases x <;> cases y <;>
      simp [Tolerance.validate, truthy_zero, Tolerance.truthy]
  · simp [Tolerance.validate, truthy_zero, Status.ofBools]
  · simp [Tolerance.validate, Tolerance.truthy, Status.ofBools]

/-- C5: on two float-typed values of which at least one is NaN, validate
fails with the NaN message, prefixed with the field name when one is
supplied, and returns normally (no exception reaches the caller). -/
theorem validate_nan_fail (tol : Tolerance) (x y : Val) (k : String)
    (hx : x.isFloat = true) (hy : y.isFloat = true)
    (h : x = Val.nan ∨ y = Val.nan) :
    tol.validate x y k =
      (Status.fail,
        if k = "" then "cannot compare NaNs."
        else k ++ ": " ++ "cannot compare NaNs.") := by
  cases x <;> cases y <;>
    simp_all [Val.isFloat, Tolerance.validate, Status.ofBools]

/-- Witness for C5 at a concrete input. -/
theorem validate_nan_fail_witness :
    (Tolerance.mk (some 1) (some 2)).validate Val.nan (Val.num 3) "e" =
      (Status.fail, "e: cannot compare NaNs.") := by
  have h := validate_nan_fail (Tolerance.mk (some 1) (some 2)) Val.nan
    (Val.num 3) "e" rfl rfl (Or.inl rfl)
  simpa using h

/-- C4 (counterexample): validate(x, x) is not Pass for every numeric x
and every configuration: NaN compared with itself fails, and a negative
absolute threshold makes even identical zeros fail the strict < check. -/
theorem validate_self_not_always_pass :
    ((Tolerance.mk none none).validate Val.nan Val.nan "").1 ≠ Status.pass ∧
    ((Tolerance.mk (some (-1)) none).validate
        (Val.num 0) (Val.num 0) "").1 ≠ Status.pass := by
  constructor
  · simp [Tolerance.validate, Status.ofBools]
  · rw [validate_num_num]
    have h1 : Tolerance.truthy (some (-1 : ℚ)) = true :=
      truthy_some_ne _ (by norm_num)
    have h2 : ¬ (|(0 : ℚ) - 0| < (some (-1 : ℚ)).getD 0) := by norm_num
    simp [h1, h2, Tolerance.truthy]

/-- C4 (amended): for every finite (non-NaN) numeric x and every Tolerance
whose set thresholds are nonnegative, validate(x, x, key) is a Pass. -/
theorem validate_self_pass (q : ℚ) (tol : Tolerance) (k : String)
    (ha : ∀ x, tol.absolute = some x → 0 ≤ x)
    (hr : ∀ x, tol.relative = some x → 0 ≤ x) :
    (tol.validate (Val.num q) (Val.num q) k).1 = Status.pass := by
  rw [validate_num_num]
  have h1 : ((!Tolerance.truthy tol.absolute) ||
      decide (|q - q| < tol.absolute.getD 0)) = true := by
    cases htol : tol.absolute with
    | none => rfl
    | some x =>
      by_cases hx : x = 0
      · subst hx; simp [truthy_zero]
      · have hxpos : (0 : ℚ) < x := lt_of_le_of_ne (ha x htol) (Ne.symm hx)
        simp [truthy_some_ne x hx, sub_self, abs_zero, hxpos]
  have h2 : ((!Tolerance.truthy tol.relative) ||
      errLt (relErr (q - q) q) (tol.relative.getD 0)) = true := by
    cases htol : tol.relative with
    | none => rfl
    | some x =>
      by_cases hx : x = 0
      · subst hx; simp [truthy_zero]
      · have hxpos : (0 : ℚ) < x := lt_of_le_of_ne (hr x htol) (Ne.symm hx)
        simp [truthy_some_ne x hx, sub_self, relErr_diff_zero, errLt, hxpos]
  have hc : (((!Tolerance.truthy tol.absolute) ||
        decide (|q - q| < tol.absolute.getD 0)) &&
      ((!Tolerance.truthy tol.relative) ||
        errLt (relErr (q - q) q) (tol.relative.getD 0))) = true := by
    simp only [Bool.and_eq_true]
    exact ⟨h1, h2⟩
  rw [if_pos hc]

/-- Witness for C4's amended claim at a concrete input. -/
theorem validate_self_pass_witness :
    ((Tolerance.mk (some 2) (some (1 / 2))).validate
        (Val.num 5) (Val.num 5) "x").1 = Status.pass :=
  validate_self_pass 5 (Tolerance.mk (some 2) (some (1 / 2))) "x"
    (by intro x hx; cases hx; norm_num)
    (by intro x hx; cases hx; norm_num)

/-- C7 (counterexample): the claimed case analysis fails for some set
relative thresholds.  With relative = -1 (set and truthy) the pair
benchmark 0, test 0 computes relative error 0 but fails the strict check
0 < -1, against the claim's benchmark 0, test 0 passes; with relative = 0
(set, but falsy in Python) no relative check runs at all, so benchmark 0,
test 3 passes, against the claim's benchmark 0, test nonzero fails. -/
theorem validate_relative_claim_fails :
    ((Tolerance.mk none (some (-1))).validate (Val.num 0) (Val.num 0) "").1 =
        Status.fail ∧
    ((Tolerance.mk none (some 0)).validate (Val.num 3) (Val.num 0) "").1 =
        Status.pass := by
  constructor
  · rw [validate_num_num]
    have h1 : Tolerance.truthy (some (-1 : ℚ)) = true :=
      truthy_some_ne _ (by norm_num)
    have h2 : errLt (relErr (0 : ℚ) 0) (-1 : ℚ) = false := by
      rw [relErr_diff_zero]
      norm_num [errLt]
    simp [h1, h2, Tolerance.truthy]
  · rw [validate_num_num]
    simp [truthy_zero, Tolerance.truthy]

/-- C7 (amended): for every Tolerance whose relative threshold is set to a
positive value, the relative check behaves as claimed: equal zeros pass
(relative error 0), benchmark 0 with nonzero test fails (relative error
infinite), and for a nonzero benchmark the pair passes exactly when the
quotient error is strictly below the threshold.  (A zero threshold is
falsy, so no check runs; a negative one fails even equal values under the
strict comparison.) -/
theorem validate_relative_semantics (r t b : ℚ) (k : String) (hr : 0 < r) :
    (((Tolerance.mk none (some r)).validate (Val.num 0) (Val.num 0) k).1 =
        Status.pass) ∧
    (t ≠ 0 →
      ((Tolerance.mk none (some r)).validate (Val.num t) (Val.num 0) k).1 =
        Status.fail) ∧
    (b ≠ 0 →
      (((Tolerance.mk none (some r)).validate (Val.num t) (Val.num b) k).1 =
          Status.pass ↔ |(t - b) / b| < r)) := by
  refine ⟨?_, ?_, ?_⟩
  · rw [validate_num_num]
    simp [Tolerance.truthy, hr.ne', sub_self, relErr_diff_zero, errLt, hr]
  · intro ht
    rw [validate_num_num]
    have hre : relErr t 0 = none := by simp [relErr, ht]
    simp [Tolerance.truthy, hr.ne', sub_zero, hre, errLt]
  · intro hb
    rw [validate_num_num]
    have hre : relErr (t - b) b = some |(t - b) / b| := by simp [relErr, hb]
    by_cases hP : |(t - b) / b| < r
    · simp [Tolerance.truthy, hr.ne', hre, errLt, hP]
    · simp [Tolerance.truthy, hr.ne', hre, errLt, hP]

/-- Witness for C7 at concrete inputs. -/
theorem validate_relative_semantics_witness :
    (((Tolerance.mk none (some (1 / 2))).validate (Val.num 0) (Val.num 0) "k").1 =
        Status.pass) ∧
    (((Tolerance.mk none (some (1 / 2))).validate (Val.num 3) (Val.num 0) "k").1 =
        Status.fail) ∧
    ((((Tolerance.mk none (some (1 / 2))).validate (Val.num 3) (Val.num 4) "k").1 =
        Status.pass ↔ |((3 : ℚ) - 4) / 4| < 1 / 2)) := by
  have h := validate_relative_semantics (1 / 2) 3 4 "k" (by norm_num)
  exact ⟨h.1, h.2.1 (by norm_num), h.2.2 (by norm_num)⟩

/-- No branch of validate can produce a Warning: every status it builds
comes from a single boolean or from combining two such statuses. -/
lemma validate_ne_warning (tol : Tolerance) (x y : Val) (k : String) :
    (tol.validate x y k).1 ≠ Status.warning := by
  cases x <;> cases y
  case num.num t b =>
    rw [validate_num_num]
    split <;> simp
  all_goals
    simp only [Tolerance.validate]
    try split
  all_goals simp [Status.ofBools]

/-- The per-field inner loop preserves a non-warning accumulator. -/
lemma validatePositions_ne_warning (tol : Tolerance) (tvals bvals : List Val)
    (k : String) (acc : Status × List String) (h : acc.1 ≠ Status.warning) :
    (validatePositions tol tvals bvals k acc).1 ≠ Status.warning := by
  unfold validatePositions
  generalize List.range bvals.length = l
  induction l generalizing acc with
  | nil => exact h
  | cons i l ih =>
    simp only [List.foldl_cons]
    exact ih _ (add_ne_warning _ _ h (validate_ne_warning _ _ _ _))

/-- The outer loop over the benchmark keys preserves a non-warning
accumulator. -/
lemma compareFold_ne_warning (dt : Tolerance) (tols : List (String × Tolerance))
    (test benchmark : DataSet) (ks : List String) (acc : Status × List String)
    (h : acc.1 ≠ Status.warning) :
    ((ks.foldl
        (fun acc key =>
          validatePositions (tolFor tols dt key) (lookupD test key)
            (lookupD benchmark key) key acc)
        acc).1) ≠ Status.warning := by
  induction ks generalizing acc with
  | nil => exact h
  | cons kk ks ih =>
    simp only [List.foldl_cons]
    exact ih _ (validatePositions_ne_warning _ _ _ _ _ h)

/-- C9: the comparison engine never produces the Warning verdict: on every
input validate's status is Pass or Fail, and every result compare_data
returns normally carries a Pass or Fail status. -/
theorem comparison_engine_no_warning :
    (∀ (tol : Tolerance) (x y : Val) (k : String),
        (tol.validate x y k).1 ≠ Status.warning) ∧
    (∀ (benchmark test : DataSet) (dt : Tolerance)
        (tols : List (String × Tolerance)) (ig : List String)
        (r : Bool × Status × String),
        compare_data benchmark test dt tols ig = Except.ok r →
        r.2.1 ≠ Status.warning) := by
  refine ⟨validate_ne_warning, ?_⟩
  intro benchmark test dt tols ig r h
  cases ig with
  | cons f fs =>
    simp only [compare_data] at h
    rcases hbe : benchmark.isEmpty with _ | _ <;> rw [hbe] at h <;> cases h
  | nil =>
    simp only [compare_data, Except.ok.injEq] at h
    subst h
    unfold compare_data_core
    split
    · simp [Status.ofBools]
    · exact compareFold_ne_warning dt tols test benchmark (keys benchmark)
        (Status.ofBools [true], []) (by simp [Status.ofBools])

/-- Witness for C9 at concrete inputs. -/
theorem comparison_engine_no_warning_witness :
    ((Tolerance.mk none none).validate (Val.num 1) (Val.num 2) "a").1 ≠
        Status.warning ∧
    (((true, Status.ofBools [true], "") : Bool × Status × String).2.1 ≠
        Status.warning) :=
  ⟨comparison_engine_no_warning.1 (Tolerance.mk none none)
      (Val.num 1) (Val.num 2) "a",
    comparison_engine_no_warning.2 [] [] (Tolerance.mk none none) [] []
      (true, Status.ofBools [true], "") rfl⟩

/-- Membership transfers between the keys and their sorted arrangement. -/
lemma mem_sortedKeys (d : DataSet) (k : String) :
    k ∈ sortedKeys d ↔ k ∈ keys d :=
  (List.perm_insertionSort _ _).mem_iff

/-- Two duplicate-free key lists sort equal exactly when they hold the
same keys. -/
lemma sortedKeys_eq_iff (d1 d2 : DataSet)
    (h1 : (keys d1).Nodup) (h2 : (keys d2).Nodup) :
    sortedKeys d1 = sortedKeys d2 ↔ ∀ k, k ∈ keys d1 ↔ k ∈ keys d2 := by
  constructor
  · intro h k
    rw [← mem_sortedKeys, h, mem_sortedKeys]
  · intro h
    have hperm : List.Perm (keys d1) (keys d2) :=
      (List.perm_ext_iff_of_nodup h1 h2).mpr h
    exact List.eq_of_perm_of_sorted
      ((List.perm_insertionSort _ _).trans
        (hperm.trans (List.perm_insertionSort _ _).symm))
      (List.sorted_insertionSort _ _) (List.sorted_insertionSort _ _)

/-- Two maps over one list agree exactly when they agree pointwise on its
members. -/
lemma map_eq_map_iff_on {α β : Type} (f g : α → β) (l : List α) :
    l.map f = l.map g ↔ ∀ a ∈ l, f a = g a := by
  induction l with
  | nil => simp
  | cons a l ih => simp [ih]

/-- Once the sorted key lists agree, the nitems length lists agree exactly
when every shared field has sequences of one length. -/
lemma nitems_eq_iff (d1 d2 : DataSet) (hk : sortedKeys d1 = sortedKeys d2) :
    nitems d1 = nitems d2 ↔
      ∀ k ∈ keys d1, (lookupD d1 k).length = (lookupD d2 k).length := by
  unfold nitems
  rw [← hk, map_eq_map_iff_on]
  constructor
  · intro h k hkm
    exact h k ((mem_sortedKeys d1 k).mpr hkm)
  · intro h k hkm
    exact h k ((mem_sortedKeys d1 k).mp hkm)

/-- C1: with no ignored fields, compare_data returns normally; the result
is comparable exactly when the two field-name sets agree and every shared
field carries sequences of equal length, and an incomparable pair yields
exactly the (false, Fail, fixed message) triple without any per-value
verdict. -/
theorem compare_data_shape_check (benchmark test : DataSet) (dt : Tolerance)
    (tols : List (String × Tolerance))
    (hb : (keys benchmark).Nodup) (ht : (keys test).Nodup) :
    ((compare_data_core benchmark test dt tols).1 = true ↔
      ((∀ k, k ∈ keys benchmark ↔ k ∈ keys test) ∧
        ∀ k ∈ keys benchmark,
          (lookupD benchmark k).length = (lookupD test k).length)) ∧
    ((compare_data_core benchmark test dt tols).1 = false →
      compare_data_core benchmark test dt tols =
        (false, Status.fail,
          "Different sets of data extracted from benchmark and test.")) ∧
    compare_data benchmark test dt tols [] =
      Except.ok (compare_data_core benchmark test dt tols) := by
  by_cases hcond : sortedKeys benchmark = sortedKeys test ∧
      nitems benchmark = nitems test
  · have hifn : ¬(sortedKeys benchmark ≠ sortedKeys test ∨
        nitems benchmark ≠ nitems test) := by
      simp [hcond.1, hcond.2]
    refine ⟨?_, ?_, rfl⟩
    · unfold compare_data_core
      rw [if_neg hifn]
      simp only [true_iff]
      exact ⟨(sortedKeys_eq_iff _ _ hb ht).mp hcond.1,
        (nitems_eq_iff _ _ hcond.1).mp hcond.2⟩
    · intro hfalse
      unfold compare_data_core at hfalse
      rw [if_neg hifn] at hfalse
      cases hfalse
  · have hif : sortedKeys benchmark ≠ sortedKeys test ∨
        nitems benchmark ≠ nitems test := by
      by_contra hno
      push_neg at hno
      exact hcond ⟨hno.1, hno.2⟩
    refine ⟨?_, ?_, rfl⟩
    · unfold compare_data_core
      rw [if_pos hif]
      simp only [Bool.false_eq_true, false_iff]
      intro hP
      have hks : sortedKeys benchmark = sortedKeys test :=
        (sortedKeys_eq_iff _ _ hb ht).mpr hP.1
      exact hcond ⟨hks, (nitems_eq_iff _ _ hks).mpr hP.2⟩
    · intro hfalse
      unfold compare_data_core
      rw [if_pos hif]
      rfl

/-- Witness for C1 at concrete inputs with distinct key sets. -/
theorem compare_data_shape_check_witness :
    ((compare_data_core [("a", [Val.num 1])] [("b", [Val.num 1])]
        (Tolerance.mk none none) []).1 = true ↔
      ((∀ k, k ∈ keys [("a", [Val.num 1])] ↔ k ∈ keys [("b", [Val.num 1])]) ∧
        ∀ k ∈ keys [("a", [Val.num 1])],
          (lookupD [("a", [Val.num 1])] k).length =
            (lookupD [("b", [Val.num 1])] k).length)) ∧
    ((compare_data_core [("a", [Val.num 1])] [("b", [Val.num 1])]
        (Tolerance.mk none none) []).1 = false →
      compare_data_core [("a", [Val.num 1])] [("b", [Val.num 1])]
          (Tolerance.mk none none) [] =
        (false, Status.fail,
          "Different sets of data extracted from benchmark and test.")) ∧
    compare_data [("a", [Val.num 1])] [("b", [Val.num 1])]
        (Tolerance.mk none none) [] [] =
      Except.ok (compare_data_core [("a", [Val.num 1])] [("b", [Val.num 1])]
        (Tolerance.mk none none) []) :=
  compare_data_shape_check [("a", [Val.num 1])] [("b", [Val.num 1])]
    (Tolerance.mk none none) [] (by decide) (by decide)
